import Mathlib

/-!
Verification of the two client-side scripts of the pwa-sales-app repository:
the navigation transition handler (static/js/main.js) and the offline cache
service worker (static/js/service-worker.js), shallowly embedded in Lean.
-/

set_option maxHeartbeats 1000000

namespace PwaSalesApp

/-! ## Service worker embedding (static/js/service-worker.js) -/

/-- `const CACHE_NAME = 'pwa-sales-app-v1';` -/
def CACHE_NAME : String := "pwa-sales-app-v1"

/-- `const URLS_TO_CACHE = [...]` — the fixed list of paths cached on install. -/
def URLS_TO_CACHE : List String :=
  [ "/"
  , "/input"
  , "/report"
  , "/settings"
  , "/performance"
  , "/static/css/style.css"
  , "/static/js/main.js"
  , "/static/js/service-worker.js"
  , "/static/image/icon-192.png"
  , "/static/image/icon-512.png" ]

/-- A cache: an association list from request URL (request identity) to the
stored response body. -/
abbrev Cache : Type := List (String × String)

/-- The cache storage: an association list from cache name to cache. -/
abbrev CacheStorage : Type := List (String × Cache)

/-- First-match lookup in an association list keyed by strings. -/
def alookup {α : Type} : List (String × α) → String → Option α
  | [], _ => none
  | (k, v) :: rest, key => if k = key then some v else alookup rest key

/-- `caches.open(name)`: return the storage with the named cache present,
creating an empty one if absent. -/
def cachesOpen (s : CacheStorage) (name : String) : CacheStorage :=
  match alookup s name with
  | some _ => s
  | none => s ++ [(name, ([] : Cache))]

/-- Replace the contents of the named cache. -/
def setCache (s : CacheStorage) (name : String) (c : Cache) : CacheStorage :=
  s.map (fun p => if p.1 = name then (name, c) else p)

/-- Fetch every URL of the list; succeed with the list of fetched entries only
if every individual fetch succeeds (the atomicity of `cache.addAll`). -/
def addAllEntries (fetchUrl : String → Option String) : List String → Option (List (String × String))
  | [] => some []
  | u :: us =>
    match fetchUrl u, addAllEntries fetchUrl us with
    | some r, some rest => some ((u, r) :: rest)
    | _, _ => none

/-- `cache.addAll(urls)`: atomically add all fetched entries to the cache, or
fail leaving the cache unchanged. -/
def cacheAddAll (fetchUrl : String → Option String) (c : Cache) (urls : List String) :
    Option Cache :=
  (addAllEntries fetchUrl urls).map (fun es => c ++ es)

/-- The install event listener:
`caches.open(CACHE_NAME).then(cache => cache.addAll(URLS_TO_CACHE))`.
Returns whether the install succeeded together with the resulting storage. -/
def installHandler (fetchUrl : String → Option String) (s : CacheStorage) :
    Bool × CacheStorage :=
  let s1 := cachesOpen s CACHE_NAME
  match alookup s1 CACHE_NAME with
  | some c =>
    match cacheAddAll fetchUrl c URLS_TO_CACHE with
    | some c1 => (true, setCache s1 CACHE_NAME c1)
    | none => (false, s1)
  | none => (false, s1)

/-- The activate event listener: delete every cache whose name is not
`CACHE_NAME` (`keys.filter(key => key !== CACHE_NAME).map(key => caches.delete(key))`). -/
def activateHandler (s : CacheStorage) : CacheStorage :=
  s.filter (fun p => p.1 = CACHE_NAME)

/-- `caches.match(request)`: first matching entry across all caches, by URL. -/
def cachesMatch (s : CacheStorage) (url : String) : Option String :=
  match s with
  | [] => none
  | (_, c) :: rest =>
    match alookup c url with
    | some r => some r
    | none => cachesMatch rest url

/-- A request, reduced to the fields the worker inspects. -/
structure Request where
  method : String
  url : String
deriving DecidableEq

/-- Outcome of the fetch event listener for one request. -/
inductive FetchOutcome : Type
  | notIntercepted : FetchOutcome
  | fromCache (r : String) : FetchOutcome
  | fromNetwork (r : String) : FetchOutcome
deriving DecidableEq

/-- The fetch event listener: non-GET requests are not intercepted; GET
requests are answered from the cache when a match exists, otherwise by a live
network fetch (`cached || fetch(event.request)`); the storage is returned
unchanged — nothing is written back. -/
def fetchHandler (s : CacheStorage) (network : String → String) (req : Request) :
    FetchOutcome × CacheStorage :=
  if req.method ≠ "GET" then (FetchOutcome.notIntercepted, s)
  else
    match cachesMatch s req.url with
    | some r => (FetchOutcome.fromCache r, s)
    | none => (FetchOutcome.fromNetwork (network req.url), s)

/-! ## Navigation transition handler embedding (static/js/main.js) -/

/-- Character-list core of the string prefix test used by `strStartsWith`. -/
def charsStartWith : List Char → List Char → Bool
  | _, [] => true
  | [], _ :: _ => false
  | c :: cs, d :: ds => c = d && charsStartWith cs ds

/-- JavaScript `s.startsWith(p)`: does `s` begin with the characters of `p`? -/
def strStartsWith (s p : String) : Bool := charsStartWith s.data p.data

/-- An anchor element matched by `a[data-transition]`: its `href` attribute
(absent gives `none`) and the value of its `data-transition` attribute. -/
structure Anchor where
  href : Option String
  transition : String
deriving DecidableEq

/-- The observable effects of one invocation of the body click handler. -/
structure ClickEffect where
  preventedDefault : Bool
  addedClass : Option String
  scheduledNav : Option (Nat × String)
  timerHandleSaved : Bool
deriving DecidableEq

/-- The effect of a handler invocation that returns without doing anything. -/
def noEffect : ClickEffect :=
  { preventedDefault := false, addedClass := none, scheduledNav := none,
    timerHandleSaved := false }

/-- The body click handler of main.js. The argument is the result of
`event.target.closest("a[data-transition]")`. Follows the source: return when
no anchor is found; read `href` and `dataset.transition`; return when the href
is falsy or starts with "http"; otherwise prevent default, add
"page-slide-out-right" when the intent is "back" and "page-slide-out-left"
otherwise, and schedule `window.location.href = url` after 180 ms, discarding
the timer handle. -/
def bodyClickHandler (target : Option Anchor) : ClickEffect :=
  match target with
  | none => noEffect
  | some link =>
    match link.href with
    | none => noEffect
    | some u =>
      if u = "" ∨ strStartsWith u "http" then noEffect
      else
        { preventedDefault := true
        , addedClass := some (if link.transition = "back"
            then "page-slide-out-right" else "page-slide-out-left")
        , scheduledNav := some (180, u)
        , timerHandleSaved := false }

/-- The DOMContentLoaded handler attaches the body click listener only when
`document.querySelector(".app-shell")` finds an element; a click on the page is
handled by `bodyClickHandler` only in that case. -/
def pageClick (shellPresent : Bool) (target : Option Anchor) : ClickEffect :=
  if shellPresent then bodyClickHandler target else noEffect

/-! ## Claims about the navigation transition handler -/

/-- C4 counterexample: on a concrete anchor with intent `"back"` and href
`"/input"`, the class added is not `"slide-out-right"` (the code adds
`"page-slide-out-right"`), refuting the exact class names the claim states. -/
theorem transition_class_counterexample :
    (bodyClickHandler (some { href := some "/input", transition := "back" })).addedClass
      ≠ some "slide-out-right" := by
  decide

/-- C4 (amended): for every click on a `data-transition` anchor with a
non-empty href not starting with `"http"`, default navigation is suppressed
and the shell receives class `"page-slide-out-right"` when the intent is
`"back"`, and `"page-slide-out-left"` for every other intent value. -/
theorem transition_class_added (link : Anchor) (u : String)
    (h1 : link.href = some u) (h2 : u ≠ "")
    (h3 : strStartsWith u "http" = false) :
    (bodyClickHandler (some link)).preventedDefault = true ∧
    (bodyClickHandler (some link)).addedClass =
      some (if link.transition = "back"
            then "page-slide-out-right" else "page-slide-out-left") := by
  simp [bodyClickHandler, h1, h2, h3]

/-- Witness for C4: at a concrete back-intent anchor the classes come out as
the amended claim states. -/
theorem transition_class_added_witness :
    (bodyClickHandler (some { href := some "/report", transition := "back" })).preventedDefault
        = true ∧
    (bodyClickHandler (some { href := some "/report", transition := "back" })).addedClass
        = some "page-slide-out-right" := by
  have h := transition_class_added
    { href := some "/report", transition := "back" } "/report" rfl (by decide) (by decide)
  simpa using h

/-- C5: for a `data-transition` anchor whose href is absent, empty, or starts
with `"http"`, the handler does nothing: no class, no preventDefault, no
scheduled navigation. -/
theorem external_or_empty_href_no_action (link : Anchor)
    (h : link.href = none ∨ link.href = some "" ∨
         ∃ u, link.href = some u ∧ strStartsWith u "http" = true) :
    bodyClickHandler (some link) = noEffect := by
  rcases h with h | h | ⟨u, hu, hs⟩
  · simp [bodyClickHandler, h]
  · simp [bodyClickHandler, h]
  · simp [bodyClickHandler, hu, hs]

/-- Witness for C5: a concrete anchor with an `http` href produces no effect. -/
theorem external_or_empty_href_no_action_witness :
    bodyClickHandler
        (some { href := some "https://example.com", transition := "forward" })
      = noEffect := by
  exact external_or_empty_href_no_action _
    (Or.inr (Or.inr ⟨"https://example.com", rfl, by decide⟩))

/-- C6: for every intercepted click the handler schedules navigation to
exactly the anchor href after 180 ms, and the timer handle is discarded, so
the scheduled navigation cannot be cancelled. -/
theorem scheduled_navigation_180ms (link : Anchor) (u : String)
    (h1 : link.href = some u) (h2 : u ≠ "")
    (h3 : strStartsWith u "http" = false) :
    (bodyClickHandler (some link)).scheduledNav = some (180, u) ∧
    (bodyClickHandler (some link)).timerHandleSaved = false := by
  simp [bodyClickHandler, h1, h2, h3]

/-- Witness for C6: the concrete anchor to `/settings` gets a 180 ms
navigation with no saved timer handle. -/
theorem scheduled_navigation_180ms_witness :
    (bodyClickHandler (some { href := some "/settings", transition := "tab" })).scheduledNav
        = some (180, "/settings") ∧
    (bodyClickHandler (some { href := some "/settings", transition := "tab" })).timerHandleSaved
        = false := by
  exact scheduled_navigation_180ms
    { href := some "/settings", transition := "tab" } "/settings" rfl (by decide) (by decide)

/-- C7: when `event.target.closest` finds no `data-transition` anchor, the
handler performs no action at all. -/
theorem no_transition_anchor_no_action :
    bodyClickHandler none = noEffect := rfl

/-- C10: when no `.app-shell` element exists at DOMContentLoaded, the click
listener is never attached, so every subsequent click — whatever anchor it
lands on — has no effect. -/
theorem no_shell_no_click_effect (target : Option Anchor) :
    pageClick false target = noEffect := rfl

/-! ## Helper lemmas about the cache-storage association lists -/

theorem alookup_append {α : Type} (l1 l2 : List (String × α)) (k : String) :
    alookup (l1 ++ l2) k =
      match alookup l1 k with
      | some v => some v
      | none => alookup l2 k := by
  induction l1 with
  | nil => simp [alookup]
  | cons p rest ih =>
    obtain ⟨a, b⟩ := p
    by_cases h : a = k <;> simp [alookup, h, ih]

theorem alookup_cons {α : Type} (a : String) (b : α) (l : List (String × α))
    (k : String) :
    alookup ((a, b) :: l) k = if a = k then some b else alookup l k := rfl

theorem setCache_cons (a : String) (b : Cache) (rest : CacheStorage)
    (name : String) (c : Cache) :
    setCache ((a, b) :: rest) name c =
      (if a = name then (name, c) else (a, b)) :: setCache rest name c := by
  by_cases h : a = name <;> simp [setCache, h]

theorem activateHandler_cons (a : String) (b : Cache) (rest : CacheStorage) :
    activateHandler ((a, b) :: rest) =
      if a = CACHE_NAME then (a, b) :: activateHandler rest
      else activateHandler rest := by
  by_cases h : a = CACHE_NAME <;> simp [activateHandler, List.filter_cons, h]

theorem alookup_activate (s : CacheStorage) (name : String) :
    (alookup (activateHandler s) name).isSome ↔
      (alookup s name).isSome ∧ name = CACHE_NAME := by
  induction s with
  | nil => simp [activateHandler, alookup]
  | cons p rest ih =>
    obtain ⟨a, b⟩ := p
    rw [activateHandler_cons, alookup_cons]
    by_cases ha : a = CACHE_NAME
    · rw [if_pos ha, alookup_cons]
      by_cases hk : a = name
      · subst hk
        simp [ha]
      · rw [if_neg hk, if_neg hk]
        exact ih
    · rw [if_neg ha]
      by_cases hk : a = name
      · subst hk
        simp [ih, ha]
      · rw [if_neg hk]
        exact ih

theorem alookup_cachesOpen_self (s : CacheStorage) (name : String) :
    (alookup (cachesOpen s name) name).isSome := by
  unfold cachesOpen
  cases h : alookup s name with
  | some c => simp [h]
  | none => simp [alookup_append, h, alookup]

theorem alookup_cachesOpen_isSome (s : CacheStorage) (name k : String)
    (h : (alookup (cachesOpen s name) k).isSome) :
    (alookup s k).isSome ∨ k = name := by
  unfold cachesOpen at h
  cases hs : alookup s name with
  | some c => rw [hs] at h; exact Or.inl h
  | none =>
    rw [hs, alookup_append] at h
    cases hk : alookup s k with
    | some c => exact Or.inl (by simp)
    | none =>
      rw [hk] at h
      by_cases hkn : name = k
      · exact Or.inr hkn.symm
      · simp [alookup, hkn] at h

theorem alookup_setCache_self (s : CacheStorage) (name : String) (c : Cache)
    (h : (alookup s name).isSome) :
    alookup (setCache s name c) name = some c := by
  induction s with
  | nil => simp [alookup] at h
  | cons p rest ih =>
    obtain ⟨a, b⟩ := p
    rw [setCache_cons]
    by_cases ha : a = name
    · rw [if_pos ha, alookup_cons, if_pos rfl]
    · rw [if_neg ha, alookup_cons, if_neg ha]
      rw [alookup_cons, if_neg ha] at h
      exact ih h

theorem alookup_setCache_isSome (s : CacheStorage) (name k : String) (c : Cache)
    (h : (alookup (setCache s name c) k).isSome) :
    (alookup s k).isSome := by
  induction s with
  | nil => simp [setCache, alookup] at h
  | cons p rest ih =>
    obtain ⟨a, b⟩ := p
    rw [setCache_cons] at h
    rw [alookup_cons]
    by_cases ha : a = name
    · subst ha
      rw [if_pos rfl, alookup_cons] at h
      by_cases hk : a = k
      · simp [hk]
      · rw [if_neg hk] at h ⊢
        exact ih h
    · rw [if_neg ha, alookup_cons] at h
      by_cases hk : a = k
      · simp [hk]
      · rw [if_neg hk] at h ⊢
        exact ih h

theorem addAllEntries_all_some (fetchUrl : String → Option String)
    (urls : List String) (h : ∀ u ∈ urls, (fetchUrl u).isSome) :
    ∃ es, addAllEntries fetchUrl urls = some es ∧
      ∀ u ∈ urls, (alookup es u).isSome := by
  induction urls with
  | nil => exact ⟨[], rfl, by simp⟩
  | cons u us ih =>
    obtain ⟨es, hes, hmem⟩ := ih (fun v hv => h v (List.mem_cons_of_mem u hv))
    have hu : (fetchUrl u).isSome := h u (List.mem_cons_self u us)
    cases hfu : fetchUrl u with
    | none => rw [hfu] at hu; simp at hu
    | some r =>
      refine ⟨(u, r) :: es, ?_, ?_⟩
      · simp [addAllEntries, hfu, hes]
      · intro v hv
        by_cases huv : u = v
        · simp [alookup, huv]
        · rcases List.mem_cons.mp hv with hv | hv
          · exact absurd hv.symm huv
          · simp only [alookup, huv, if_false]
            exact hmem v hv

theorem addAllEntries_fail (fetchUrl : String → Option String)
    (urls : List String) (u : String) (hu : u ∈ urls) (h : fetchUrl u = none) :
    addAllEntries fetchUrl urls = none := by
  induction urls with
  | nil => simp at hu
  | cons v vs ih =>
    rcases List.mem_cons.mp hu with rfl | hv
    · simp [addAllEntries, h]
    · cases hfv : fetchUrl v <;> simp [addAllEntries, hfv, ih hv]

/-! ## Claims about the service worker -/

/-- C1: the fetch listener does not intercept non-GET requests; it answers a
GET with a cache match from the cache without consulting the network; it
answers a GET miss with the live network result; in every case the cache
storage is returned unchanged, so nothing is written back on a miss. -/
theorem fetch_cache_first (s : CacheStorage) (network : String → String)
    (req : Request) :
    (req.method ≠ "GET" →
      fetchHandler s network req = (FetchOutcome.notIntercepted, s)) ∧
    (∀ r, req.method = "GET" → cachesMatch s req.url = some r →
      fetchHandler s network req = (FetchOutcome.fromCache r, s)) ∧
    (req.method = "GET" → cachesMatch s req.url = none →
      fetchHandler s network req = (FetchOutcome.fromNetwork (network req.url), s)) := by
  refine ⟨fun h => by simp [fetchHandler, h], fun r hm hc => ?_, fun hm hc => ?_⟩
  · simp [fetchHandler, hm, hc]
  · simp [fetchHandler, hm, hc]

/-- Witness for C1: a concrete GET hit is served from the cache, a concrete
GET miss from the network, and a concrete POST is not intercepted. -/
theorem fetch_cache_first_witness :
    fetchHandler [(CACHE_NAME, [("/", "shell")])] (fun _ => "net")
        { method := "GET", url := "/" }
      = (FetchOutcome.fromCache "shell", [(CACHE_NAME, [("/", "shell")])]) ∧
    fetchHandler [(CACHE_NAME, [("/", "shell")])] (fun _ => "net")
        { method := "GET", url := "/report" }
      = (FetchOutcome.fromNetwork "net", [(CACHE_NAME, [("/", "shell")])]) ∧
    fetchHandler [(CACHE_NAME, [("/", "shell")])] (fun _ => "net")
        { method := "POST", url := "/" }
      = (FetchOutcome.notIntercepted, [(CACHE_NAME, [("/", "shell")])]) := by
  refine ⟨?_, ?_, ?_⟩
  · exact (fetch_cache_first _ _ _).2.1 "shell" rfl (by decide)
  · exact (fetch_cache_first _ _ _).2.2 rfl (by decide)
  · exact (fetch_cache_first _ _ _).1 (by decide)

/-- C3: after activate, a cache name survives iff it was present before and
equals the version identifier; concretely, from
`{"pwa-sales-app-v1", "old-cache"}` exactly `"old-cache"` is deleted. -/
theorem activate_prunes_stale (s : CacheStorage) (name : String) (c1 c2 : Cache) :
    ((alookup (activateHandler s) name).isSome ↔
      (alookup s name).isSome ∧ name = CACHE_NAME) ∧
    activateHandler [("pwa-sales-app-v1", c1), ("old-cache", c2)]
      = [("pwa-sales-app-v1", c1)] := by
  refine ⟨alookup_activate s name, ?_⟩
  simp [activateHandler, CACHE_NAME, List.filter]

/-- C2: on install, the bulk add into the cache named `CACHE_NAME` is atomic:
when every fetch succeeds the install succeeds and every listed URL is an
entry of that cache; when any single fetch fails the install fails and the
storage is exactly what `caches.open` alone produced — in particular, if the
cache did not exist before, it is left empty, so no entry from the batch
persists. -/
theorem install_atomic_bulk_add (fetchUrl : String → Option String)
    (s : CacheStorage) :
    ((∀ u ∈ URLS_TO_CACHE, (fetchUrl u).isSome) →
      (installHandler fetchUrl s).1 = true ∧
      ∀ u ∈ URLS_TO_CACHE,
        ∃ c, alookup (installHandler fetchUrl s).2 CACHE_NAME = some c ∧
          (alookup c u).isSome) ∧
    ((∃ u ∈ URLS_TO_CACHE, fetchUrl u = none) →
      (installHandler fetchUrl s).1 = false ∧
      (installHandler fetchUrl s).2 = cachesOpen s CACHE_NAME ∧
      (alookup s CACHE_NAME = none →
        alookup (installHandler fetchUrl s).2 CACHE_NAME = some [])) := by
  constructor
  · intro hall
    obtain ⟨es, hes, hmem⟩ := addAllEntries_all_some fetchUrl URLS_TO_CACHE hall
    obtain ⟨c0, hc0⟩ :=
      Option.isSome_iff_exists.mp (alookup_cachesOpen_self s CACHE_NAME)
    have hres : installHandler fetchUrl s =
        (true, setCache (cachesOpen s CACHE_NAME) CACHE_NAME (c0 ++ es)) := by
      simp [installHandler, hc0, cacheAddAll, hes]
    rw [hres]
    refine ⟨rfl, fun u hu => ⟨c0 ++ es, ?_, ?_⟩⟩
    · exact alookup_setCache_self _ _ _ (by simp [hc0])
    · rw [alookup_append]
      cases hv : alookup c0 u with
      | some v => simp
      | none => simpa using hmem u hu
  · rintro ⟨u, hu, hnone⟩
    have hfail : addAllEntries fetchUrl URLS_TO_CACHE = none :=
      addAllEntries_fail fetchUrl _ u hu hnone
    obtain ⟨c0, hc0⟩ :=
      Option.isSome_iff_exists.mp (alookup_cachesOpen_self s CACHE_NAME)
    have hres : installHandler fetchUrl s = (false, cachesOpen s CACHE_NAME) := by
      simp [installHandler, hc0, cacheAddAll, hfail]
    rw [hres]
    refine ⟨rfl, rfl, fun habsent => ?_⟩
    simp [cachesOpen, habsent, alookup_append, alookup]

/-- Witness for C2: with an always-succeeding fetch the install succeeds from
the empty storage; with an always-failing fetch it fails. -/
theorem install_atomic_bulk_add_witness :
    (installHandler (fun u => some u) []).1 = true ∧
    (installHandler (fun _ => none) []).1 = false := by
  constructor
  · exact ((install_atomic_bulk_add (fun u => some u) []).1
      (fun u _ => by simp)).1
  · exact ((install_atomic_bulk_add (fun _ => none) []).2
      ⟨"/", by decide, rfl⟩).1

/-- C9: the relational invariant "the active cache name equals the version
identifier": every cache surviving the activate handler is named `CACHE_NAME`,
and the install handler never creates a cache under any other name. -/
theorem active_cache_name_invariant (s : CacheStorage) (name : String)
    (fetchUrl : String → Option String) :
    ((alookup (activateHandler s) name).isSome → name = CACHE_NAME) ∧
    ((alookup (installHandler fetchUrl s).2 name).isSome →
      (alookup s name).isSome ∨ name = CACHE_NAME) := by
  constructor
  · intro h
    exact ((alookup_activate s name).mp h).2
  · intro h
    obtain ⟨c0, hc0⟩ :=
      Option.isSome_iff_exists.mp (alookup_cachesOpen_self s CACHE_NAME)
    cases hadd : cacheAddAll fetchUrl c0 URLS_TO_CACHE with
    | some c1 =>
      have hres : (installHandler fetchUrl s).2 =
          setCache (cachesOpen s CACHE_NAME) CACHE_NAME c1 := by
        simp [installHandler, hc0, hadd]
      rw [hres] at h
      exact alookup_cachesOpen_isSome s CACHE_NAME name
        (alookup_setCache_isSome _ _ _ _ h)
    | none =>
      have hres : (installHandler fetchUrl s).2 = cachesOpen s CACHE_NAME := by
        simp [installHandler, hc0, hadd]
      rw [hres] at h
      exact alookup_cachesOpen_isSome s CACHE_NAME name h

/-- Witness for C9: concrete two-cache storage, failing fetch; the surviving
name is accounted for. -/
theorem active_cache_name_invariant_witness :
    (alookup [("pwa-sales-app-v1", ([] : Cache)), ("old-cache", ([] : Cache))]
        "pwa-sales-app-v1").isSome
      ∨ "pwa-sales-app-v1" = CACHE_NAME := by
  exact (active_cache_name_invariant
    [("pwa-sales-app-v1", []), ("old-cache", [])] "pwa-sales-app-v1"
    (fun _ => none)).2 (by decide)

/-- C8 counterexample: the cached-URL list holds five static asset paths, not
four, so its total length is 10 rather than the 5 + 4 the claim implies. -/
theorem cached_url_count_counterexample :
    (URLS_TO_CACHE.filter (fun u => strStartsWith u "/static")).length = 5 ∧
    ¬ (URLS_TO_CACHE.filter (fun u => strStartsWith u "/static")).length = 4 := by
  decide

/-- C8 (amended): the cached-URL constant is exactly the five page paths plus
five static asset paths, in this order. -/
theorem cached_url_list_value :
    URLS_TO_CACHE =
      [ "/", "/input", "/report", "/settings", "/performance"
      , "/static/css/style.css", "/static/js/main.js"
      , "/static/js/service-worker.js", "/static/image/icon-192.png"
      , "/static/image/icon-512.png" ] ∧
    (URLS_TO_CACHE.filter (fun u => strStartsWith u "/static")).length = 5 := by
  decide

end PwaSalesApp
